import Mathlib

/-!
Shallow embedding of the zero-copy GPU memory module of the HPC_GPGPU
repository (examples/006_Zero_Copy_Shared_Memory/mailbox.c and mailbox.h),
together with theorems settling the specification claims about it.

Modelling conventions:
* 32-bit machine words (uint32_t) are Nat values; wherever the C code can
  overflow, the embedding reduces modulo 2^32 explicitly.
* Pointers (void *, uintptr_t, 64-bit target) are Nat values modulo 2^64,
  with 0 playing the role of NULL.
* The effects of the operating system and firmware (the ioctl transport,
  the contents of the property buffer after the call, the address chosen
  by mmap, and mmap/munmap/open success) are supplied by explicit
  environment records; the embedded functions are pure functions of their
  C arguments and that environment.
* External side effects performed by the code (firmware calls, mmap and
  munmap invocations) are recorded in an explicit trace of type List Op,
  so that rollback and teardown ordering claims can be stated.
-/

namespace HPC.Mailbox

/-- 2^32, the modulus of uint32_t arithmetic. -/
def U32 : Nat := 2 ^ 32

/-- 2^64, the modulus of pointer (uintptr_t) arithmetic on the 64-bit target. -/
def U64 : Nat := 2 ^ 64

/-- mailbox.c line 46: #define PAGE_SIZE 4096. -/
def PAGE_SIZE : Nat := 4096

/-- mailbox.c line 110: #define RESPONSE_OK 0x80000000. -/
def RESPONSE_OK : Nat := 0x80000000

/-- mailbox.c line 111: #define RESPONSE_ERROR 0x80000001. -/
def RESPONSE_ERROR : Nat := 0x80000001

/-- mailbox.h line 66: #define MEM_FLAG_DIRECT (1 << 2). -/
def MEM_FLAG_DIRECT : Nat := 1 <<< 2

/-- mailbox.h line 69: #define MEM_FLAG_COHERENT (2 << 2). -/
def MEM_FLAG_COHERENT : Nat := 2 <<< 2

/-- mailbox.h line 72: MEM_FLAG_L1_NONALLOCATING = MEM_FLAG_DIRECT | MEM_FLAG_COHERENT. -/
def MEM_FLAG_L1_NONALLOCATING : Nat := MEM_FLAG_DIRECT ||| MEM_FLAG_COHERENT

/-- mailbox.h line 75: #define MEM_FLAG_ZERO (1 << 4). -/
def MEM_FLAG_ZERO : Nat := 1 <<< 4

/-- mailbox.h line 108: #define MBOX_INVALID_HANDLE (-1). -/
def MBOX_INVALID_HANDLE : Int := -1

/-- Bitwise NOT of a uint32_t value: on a 32-bit word every bit position
below 32 is set in 0xFFFFFFFF, so the C operator ~x is exactly
0xFFFFFFFF - x (no borrows occur). -/
def compl32 (x : Nat) : Nat := (U32 - 1) - x % U32

/-- Bitwise NOT of a 64-bit word, used for the uintptr_t arithmetic in
unmapmem (the int expression ~(PAGE_SIZE - 1) is sign-extended to
0xFFFFFFFFFFFFF000 when combined with a 64-bit uintptr_t). -/
def compl64 (x : Nat) : Nat := (U64 - 1) - x % U64

/-- mailbox.c lines 121-123:
  static inline uint32_t align_up(uint32_t value, uint32_t alignment)
    returns (value + alignment - 1) and not (alignment - 1).
All arithmetic is uint32_t: the additions wrap modulo 2^32 and the two
occurrences of x - 1 are two's-complement, i.e. (x + 2^32 - 1) mod 2^32. -/
def align_up (value alignment : Nat) : Nat :=
  ((value + alignment + (U32 - 1)) % U32) &&& compl32 (alignment + (U32 - 1))

/-- mailbox.h lines 288-290: bus_to_phys(bus) = bus & 0x3FFFFFFF. -/
def bus_to_phys (bus_addr : Nat) : Nat := bus_addr &&& 0x3FFFFFFF

/-- mailbox.h lines 298-300: bus_get_alias(bus) = (bus >> 30) & 0x3. -/
def bus_get_alias (bus_addr : Nat) : Nat := (bus_addr >>> 30) &&& 0x3

/-- mailbox.h lines 309-311:
  phys_to_bus(phys, alias) = (phys & 0x3FFFFFFF) | (alias << 30),
where the uint32_t shift truncates alias << 30 modulo 2^32. -/
def phys_to_bus (phys_addr al : Nat) : Nat :=
  (phys_addr &&& 0x3FFFFFFF) ||| ((al <<< 30) % U32)

/-- mailbox.c line 574 (mem_flags_to_string): the caching-alias field of an
allocation flags word is (flags >> 2) & 0x3. -/
def flags_alias (flags : Nat) : Nat := (flags >>> 2) &&& 0x3

/- ==========================================================================
Helper lemmas about the 32/64-bit mask arithmetic.
========================================================================== -/

/-- Masking with the high bits 2^w - 2^k (the two's-complement encoding of
the C expression x & ~(2^k - 1) on a w-bit word) clears the low k bits:
for x < 2^w it equals x / 2^k * 2^k. -/
theorem land_high_mask {x : Nat} {w k : Nat} (hx : x < 2 ^ w) (hk : k ≤ w) :
    x &&& (2 ^ w - 2 ^ k) = x / 2 ^ k * 2 ^ k := by
  have hmask : (2:Nat) ^ w - 2 ^ k = (2 ^ (w - k) - 1) <<< k := by
    rw [Nat.shiftLeft_eq, Nat.sub_mul, ← pow_add, Nat.sub_add_cancel hk, one_mul]
  have hx' : x / 2 ^ k * 2 ^ k = (x >>> k) <<< k := by
    rw [Nat.shiftRight_eq_div_pow, Nat.shiftLeft_eq]
  apply Nat.eq_of_testBit_eq
  intro i
  rw [hmask, hx', Nat.testBit_and, Nat.testBit_shiftLeft, Nat.testBit_shiftLeft,
    Nat.testBit_shiftRight, Nat.testBit_two_pow_sub_one]
  by_cases hik : k ≤ i
  · by_cases hiw : i < w
    · have h1 : i - k < w - k := by omega
      have h2 : k + (i - k) = i := by omega
      simp [hik, h1, h2]
    · have hxi : x.testBit i = false := by
        apply Nat.testBit_lt_two_pow
        calc x < 2 ^ w := hx
          _ ≤ 2 ^ i := Nat.pow_le_pow_right (by norm_num) (by omega)
      have hxk : x.testBit (k + (i - k)) = false := by
        have h2 : k + (i - k) = i := by omega
        rw [h2, hxi]
      simp [hxi, hxk]
  · simp [hik]

/-- phys_to_bus in arithmetic form: the low 30 bits hold phys mod 2^30 and
the top two bits hold alias mod 4. -/
theorem phys_to_bus_eq (p a : Nat) :
    phys_to_bus p a = 2 ^ 30 * (a % 4) + p % 2 ^ 30 := by
  unfold phys_to_bus U32
  have hm : (0x3FFFFFFF : Nat) = 2 ^ 30 - 1 := by norm_num
  have h1 : p &&& 0x3FFFFFFF = p % 2 ^ 30 := by
    rw [hm, Nat.and_pow_two_sub_one_eq_mod]
  have h2 : (a <<< 30) % 2 ^ 32 = 2 ^ 30 * (a % 4) := by
    rw [Nat.shiftLeft_eq, Nat.mul_comm a]
    have h4 : (2:Nat) ^ 32 = 2 ^ 30 * 4 := by norm_num
    rw [h4, Nat.mul_mod_mul_left]
  rw [h1, h2, Nat.lor_comm, ← Nat.mul_add_lt_is_or (Nat.mod_lt _ (by norm_num))]

/-- bus_to_phys in arithmetic form. -/
theorem bus_to_phys_eq (b : Nat) : bus_to_phys b = b % 2 ^ 30 := by
  unfold bus_to_phys
  have hm : (0x3FFFFFFF : Nat) = 2 ^ 30 - 1 := by norm_num
  rw [hm, Nat.and_pow_two_sub_one_eq_mod]

/-- bus_get_alias in arithmetic form. -/
theorem bus_get_alias_eq (b : Nat) : bus_get_alias b = b / 2 ^ 30 % 4 := by
  unfold bus_get_alias
  have hm : (0x3 : Nat) = 2 ^ 2 - 1 := by norm_num
  rw [hm, Nat.and_pow_two_sub_one_eq_mod, Nat.shiftRight_eq_div_pow]

/-- Claim C2: for every physical address p in the 30-bit range and every
alias a in 0..3, bus_to_phys (phys_to_bus p a) = p and
bus_get_alias (phys_to_bus p a) = a; and for arbitrary p,
bus_to_phys (phys_to_bus p a) = p &&& 0x3FFFFFFF.  The three translators
are total Lean functions, so they have no failure mode. -/
theorem bus_translator_roundtrip (p a : Nat) :
    (p < 2 ^ 30 → a < 4 →
      bus_to_phys (phys_to_bus p a) = p ∧ bus_get_alias (phys_to_bus p a) = a) ∧
    bus_to_phys (phys_to_bus p a) = p &&& 0x3FFFFFFF := by
  have hm : (0x3FFFFFFF : Nat) = 2 ^ 30 - 1 := by norm_num
  have hphys : bus_to_phys (phys_to_bus p a) = p % 2 ^ 30 := by
    rw [phys_to_bus_eq, bus_to_phys_eq, Nat.add_comm, Nat.add_mul_mod_self_left,
      Nat.mod_mod_of_dvd p (dvd_refl (2 ^ 30))]
  refine ⟨fun hp ha => ?_, ?_⟩
  · constructor
    · rw [hphys, Nat.mod_eq_of_lt hp]
    · rw [phys_to_bus_eq, bus_get_alias_eq,
        Nat.mul_add_div (by norm_num : 0 < 2 ^ 30)]
      rw [Nat.div_eq_of_lt (Nat.mod_lt _ (by norm_num)), Nat.add_zero]
      omega
  · rw [hphys, hm, Nat.and_pow_two_sub_one_eq_mod]

/- ==========================================================================
Mailbox transport and firmware memory operations (mailbox.c lines 147-304).
The kernel/firmware side of the ioctl is modelled by a PropResult record:
whether the ioctl itself succeeded, and the contents of the response code
word buf[1] and the first value word buf[5] after the call returns.
========================================================================== -/

/-- Outcome of one IOCTL_MBOX_PROPERTY exchange, as observed by the caller
through the property buffer after the call: transport_ok is whether the
ioctl returned without error; code is buf[1]; value is buf[5]. -/
structure PropResult where
  transport_ok : Bool
  code : Nat
  value : Nat
deriving Repr, DecidableEq

/-- mailbox.c lines 147-160 (mbox_property): returns -1 when the handle is
MBOX_INVALID_HANDLE or the ioctl fails, otherwise 0.  The buffer contents
after the call are carried by the PropResult of the enclosing operation. -/
def mbox_property (mbox : Int) (transport_ok : Bool) : Int :=
  if mbox = MBOX_INVALID_HANDLE then -1
  else if transport_ok then 0 else -1

/-- mailbox.c lines 167-209 (mem_alloc): builds the TAG_ALLOCATE_MEMORY
request from size, alignment and flags; returns 0 if mbox_property fails,
0 if the response code buf[1] differs from RESPONSE_OK, and otherwise the
handle read back from buf[5] (a uint32_t word). -/
def mem_alloc (mbox : Int) (size alignment flags : Nat) (r : PropResult) : Nat :=
  if mbox_property mbox r.transport_ok < 0 then 0
  else if r.code ≠ RESPONSE_OK then 0
  else r.value % U32

/-- mailbox.c lines 211-244 (mem_lock): returns 0 if mbox_property fails,
0 if the response code differs from RESPONSE_OK, and otherwise the bus
address read back from buf[5]. -/
def mem_lock (mbox : Int) (handle : Nat) (r : PropResult) : Nat :=
  if mbox_property mbox r.transport_ok < 0 then 0
  else if r.code ≠ RESPONSE_OK then 0
  else r.value % U32

/-- mailbox.c lines 246-274 (mem_unlock): returns (uint32_t)-1 if
mbox_property fails, otherwise the status word buf[5] unchanged — the
response code buf[1] is never inspected. -/
def mem_unlock (mbox : Int) (handle : Nat) (r : PropResult) : Nat :=
  if mbox_property mbox r.transport_ok < 0 then U32 - 1
  else r.value % U32

/-- mailbox.c lines 276-304 (mem_free): returns (uint32_t)-1 if
mbox_property fails, otherwise the status word buf[5] unchanged — the
response code buf[1] is never inspected. -/
def mem_free (mbox : Int) (handle : Nat) (r : PropResult) : Nat :=
  if mbox_property mbox r.transport_ok < 0 then U32 - 1
  else r.value % U32

/- ==========================================================================
Memory mapping (mailbox.c lines 311-373) and the operation trace.
========================================================================== -/

/-- External side effects performed by the module, recorded for the
rollback/teardown claims: firmware calls and mmap/munmap invocations. -/
inductive Op where
  | allocCall (size alignment flags : Nat)
  | lockCall (handle : Nat)
  | unlockCall (handle : Nat)
  | freeCall (handle : Nat)
  | mapCall (page_base map_size : Nat) (o_sync : Bool)
  | munmapCall (page_addr map_size : Nat)
deriving Repr, DecidableEq

/-- Environment of one mapmem_uncached call: whether open("/dev/mem")
succeeds, whether mmap succeeds, and the page-aligned virtual base
address mmap chooses when it does. -/
structure MapEnv where
  open_ok : Bool
  mmap_ok : Bool
  mmap_base : Nat
deriving Repr, DecidableEq

/-- mailbox.c lines 315-357 (mapmem_uncached): on open failure returns NULL
having called nothing; otherwise rounds base down to the enclosing page
(base & ~(PAGE_SIZE - 1)), computes the intra-page offset and the mapped
length align_up(size + page_offset, PAGE_SIZE), invokes mmap on that
page-aligned range (recorded in the trace, with the O_SYNC/uncached flag),
and returns NULL on mmap failure or the mmap base plus the page offset on
success.  Pointer arithmetic is modulo 2^64. -/
def mapmem_uncached (base size : Nat) (uncached : Bool) (env : MapEnv) :
    Nat × List Op :=
  if env.open_ok = false then (0, [])
  else
    let page_base := base &&& compl32 (PAGE_SIZE - 1)
    let page_offset := base - page_base
    let map_size := align_up (size + page_offset) PAGE_SIZE
    if env.mmap_ok = false then (0, [Op.mapCall page_base map_size uncached])
    else ((env.mmap_base % U64 + page_offset) % U64,
          [Op.mapCall page_base map_size uncached])

/-- mailbox.c lines 311-313 (mapmem): mapmem_uncached with uncached = 0. -/
def mapmem (base size : Nat) (env : MapEnv) : Nat × List Op :=
  mapmem_uncached base size false env

/-- mailbox.c lines 359-373 (unmapmem): a NULL pointer returns immediately
with no munmap call; otherwise the page-aligned address addr &
~(PAGE_SIZE - 1) (uintptr_t arithmetic, 64-bit) and the mapped length
align_up(size + page_offset, PAGE_SIZE) are reconstructed and munmap is
invoked on them.  A munmap failure only prints a warning (lines 370-372);
it has no other effect, which is why the munmap outcome is not a
parameter here. -/
def unmapmem (virt_addr size : Nat) : List Op :=
  if virt_addr = 0 then []
  else
    let page_addr := virt_addr &&& compl64 (PAGE_SIZE - 1)
    let page_offset := virt_addr - page_addr
    let map_size := align_up (size + page_offset) PAGE_SIZE
    [Op.munmapCall page_addr map_size]

/- ==========================================================================
High-level GPU memory API (mailbox.h lines 121-139, mailbox.c lines 380-463).
========================================================================== -/

/-- mailbox.h lines 121-139: the gpu_mem_t structure.  virt_addr is a
pointer value with 0 for NULL. -/
structure gpu_mem_t where
  mbox : Int
  mem_handle : Nat
  bus_addr : Nat
  size : Nat
  virt_addr : Nat
  flags : Nat
deriving Repr, DecidableEq

/-- Environment of one gpu_mem_alloc call: the outcomes of the mem_alloc
and mem_lock property exchanges and of the mapmem_uncached call.  The
rollback calls mem_unlock/mem_free discard their results (mailbox.c lines
406, 421-422), so no outcomes are needed for them. -/
structure AllocEnv where
  alloc_r : PropResult
  lock_r : PropResult
  map_env : MapEnv
deriving Repr, DecidableEq

/-- mailbox.c lines 380-429 (gpu_mem_alloc).  mem_nonnull models whether
the output pointer is non-NULL (line 382: a NULL pointer returns -1
before doing anything).  The function zeroes the structure, stores mbox,
rounds size up to the alignment, stores size and flags, then runs
allocate (line 396), lock (line 403) and map (line 418), returning -1 and
rolling back completed stages when a stage fails: on allocation failure
nothing to roll back; on lock failure mem_free is called and mem_handle
cleared (lines 406-407); on map failure mem_unlock and mem_free are
called and mem_handle and bus_addr cleared (lines 421-424).  The uncached
mapping mode is selected when flags & MEM_FLAG_DIRECT is nonzero
(line 416). -/
def gpu_mem_alloc (mbox : Int) (size alignment flags : Nat)
    (mem_nonnull : Bool) (env : AllocEnv) : Int × Option gpu_mem_t × List Op :=
  if mem_nonnull = false then (-1, none, [])
  else
    let asize := align_up size alignment
    let handle := mem_alloc mbox asize alignment flags env.alloc_r
    if handle = 0 then
      (-1, some { mbox := mbox, mem_handle := 0, bus_addr := 0, size := asize,
                  virt_addr := 0, flags := flags },
       [Op.allocCall asize alignment flags])
    else
      let bus := mem_lock mbox handle env.lock_r
      if bus = 0 then
        (-1, some { mbox := mbox, mem_handle := 0, bus_addr := 0, size := asize,
                    virt_addr := 0, flags := flags },
         [Op.allocCall asize alignment flags, Op.lockCall handle,
          Op.freeCall handle])
      else
        let use_uncached := decide ((flags &&& MEM_FLAG_DIRECT) ≠ 0)
        let mr := mapmem_uncached (bus_to_phys bus) asize use_uncached env.map_env
        if mr.1 = 0 then
          (-1, some { mbox := mbox, mem_handle := 0, bus_addr := 0,
                      size := asize, virt_addr := 0, flags := flags },
           [Op.allocCall asize alignment flags, Op.lockCall handle] ++ mr.2 ++
           [Op.unlockCall handle, Op.freeCall handle])
        else
          (0, some { mbox := mbox, mem_handle := handle, bus_addr := bus,
                     size := asize, virt_addr := mr.1, flags := flags },
           [Op.allocCall asize alignment flags, Op.lockCall handle] ++ mr.2)

/-- Environment of one gpu_mem_free call: the munmap outcome (checked only
to print a warning) and the outcomes of the unlock and release property
exchanges. -/
structure FreeEnv where
  munmap_ok : Bool
  unlock_r : PropResult
  free_r : PropResult
deriving Repr, DecidableEq

/-- mailbox.c lines 438-442, step 1 of gpu_mem_free: if virt_addr is
non-NULL, unmapmem it with the stored size and clear it. -/
def free_step_unmap (m : gpu_mem_t) : gpu_mem_t × List Op :=
  if m.virt_addr ≠ 0 then ({ m with virt_addr := 0 }, unmapmem m.virt_addr m.size)
  else (m, [])

/-- mailbox.c lines 444-451, step 2 of gpu_mem_free: if bus_addr is
nonzero, call mem_unlock, record whether it reported an error (a nonzero
status), and clear bus_addr unconditionally. -/
def free_step_unlock (m : gpu_mem_t) (r : PropResult) :
    gpu_mem_t × List Op × Bool :=
  if m.bus_addr ≠ 0 then
    ({ m with bus_addr := 0 }, [Op.unlockCall m.mem_handle],
     decide (mem_unlock m.mbox m.mem_handle r ≠ 0))
  else (m, [], false)

/-- mailbox.c lines 453-460, step 3 of gpu_mem_free: if mem_handle is
nonzero, call mem_free, record whether it reported an error, and clear
mem_handle unconditionally. -/
def free_step_release (m : gpu_mem_t) (r : PropResult) :
    gpu_mem_t × List Op × Bool :=
  if m.mem_handle ≠ 0 then
    ({ m with mem_handle := 0 }, [Op.freeCall m.mem_handle],
     decide (mem_free m.mbox m.mem_handle r ≠ 0))
  else (m, [], false)

/-- mailbox.c lines 431-463 (gpu_mem_free): NULL argument returns -1 with
no teardown; otherwise the three steps run unconditionally in order
unmap, unlock, free, and the result is -1 when the unlock step or the
release step reported an error (the munmap outcome of step 1 is checked
only to print a warning and never reaches ret), 0 otherwise. -/
def gpu_mem_free (mem : Option gpu_mem_t) (env : FreeEnv) :
    Int × Option gpu_mem_t × List Op :=
  match mem with
  | none => (-1, none, [])
  | some m =>
    let s1 := free_step_unmap m
    let s2 := free_step_unlock s1.1 env.unlock_r
    let s3 := free_step_release s2.1 env.free_r
    (if s2.2.2 || s3.2.2 then -1 else 0, some s3.1, s1.2 ++ s2.2.1 ++ s3.2.1)

/-- The gpu_mem_t invariant of the specification: a nonzero bus address
implies a nonzero memory handle, and a non-NULL virtual address implies a
nonzero bus address. -/
def gpu_mem_inv (m : gpu_mem_t) : Prop :=
  (m.bus_addr ≠ 0 → m.mem_handle ≠ 0) ∧ (m.virt_addr ≠ 0 → m.bus_addr ≠ 0)

instance (m : gpu_mem_t) : Decidable (gpu_mem_inv m) := by
  unfold gpu_mem_inv
  exact inferInstance

/-- The value of the allocate stage of gpu_mem_alloc (mailbox.c line 396):
the handle returned by mem_alloc on the aligned size. -/
def alloc_stage (mbox : Int) (size alignment flags : Nat) (env : AllocEnv) : Nat :=
  mem_alloc mbox (align_up size alignment) alignment flags env.alloc_r

/-- The value of the lock stage of gpu_mem_alloc (mailbox.c line 403):
the bus address returned by mem_lock on the allocated handle. -/
def lock_stage (mbox : Int) (size alignment flags : Nat) (env : AllocEnv) : Nat :=
  mem_lock mbox (alloc_stage mbox size alignment flags env) env.lock_r

/-- The value of the map stage of gpu_mem_alloc (mailbox.c line 418):
the virtual address returned by mapmem_uncached on the physical address
derived from the locked bus address. -/
def map_stage (mbox : Int) (size alignment flags : Nat) (env : AllocEnv) : Nat :=
  (mapmem_uncached (bus_to_phys (lock_stage mbox size alignment flags env))
    (align_up size alignment) (decide ((flags &&& MEM_FLAG_DIRECT) ≠ 0))
    env.map_env).1

/- ==========================================================================
Helper characterizations of align_up, gpu_mem_alloc and gpu_mem_free.
========================================================================== -/

/-- For a power-of-two alignment with no uint32_t overflow, align_up is the
usual round-up to a multiple. -/
theorem align_up_two_pow {v k : Nat} (hk : k ≤ 32) (hv : v + 2 ^ k ≤ 2 ^ 32) :
    align_up v (2 ^ k) = (v + 2 ^ k - 1) / 2 ^ k * 2 ^ k := by
  have hk1 : (1:Nat) ≤ 2 ^ k := Nat.one_le_two_pow
  have hkle : (2:Nat) ^ k ≤ 2 ^ 32 := Nat.pow_le_pow_right (by norm_num) hk
  unfold align_up compl32 U32
  have h1 : (v + 2 ^ k + (2 ^ 32 - 1)) % 2 ^ 32 = v + 2 ^ k - 1 := by
    have he : v + 2 ^ k + (2 ^ 32 - 1) = (v + 2 ^ k - 1) + 2 ^ 32 := by omega
    rw [he, Nat.add_mod_right, Nat.mod_eq_of_lt (by omega)]
  have h2 : (2 ^ k + (2 ^ 32 - 1)) % 2 ^ 32 = 2 ^ k - 1 := by
    have he : 2 ^ k + (2 ^ 32 - 1) = (2 ^ k - 1) + 2 ^ 32 := by omega
    rw [he, Nat.add_mod_right, Nat.mod_eq_of_lt (by omega)]
  rw [h1, h2]
  have h3 : 2 ^ 32 - 1 - (2 ^ k - 1) = 2 ^ 32 - 2 ^ k := by omega
  rw [h3]
  exact land_high_mask (by omega) hk

/-- For a power-of-two alignment with no uint32_t overflow, align_up yields
a multiple of the alignment that is at least the requested value. -/
theorem align_up_dvd_ge {v k : Nat} (hk : k ≤ 32) (hv : v + 2 ^ k ≤ 2 ^ 32) :
    2 ^ k ∣ align_up v (2 ^ k) ∧ v ≤ align_up v (2 ^ k) := by
  rw [align_up_two_pow hk hv]
  refine ⟨⟨(v + 2 ^ k - 1) / 2 ^ k, Nat.mul_comm _ _⟩, ?_⟩
  rcases Nat.eq_zero_or_pos v with hv0 | hv1
  · omega
  · have hk1 : (1:Nat) ≤ 2 ^ k := Nat.one_le_two_pow
    have he : v + 2 ^ k - 1 = v - 1 + 2 ^ k := by omega
    rw [he, Nat.add_div_right _ (by omega), Nat.add_mul, Nat.one_mul,
      Nat.mul_comm]
    have h1 := Nat.div_add_mod (v - 1) (2 ^ k)
    have h2 := Nat.mod_lt (v - 1) (show 0 < 2 ^ k by omega)
    omega

/-- gpu_mem_alloc with a non-NULL output structure, characterized by the
three stage values. -/
theorem gpu_mem_alloc_eq (mbox : Int) (size alignment flags : Nat)
    (env : AllocEnv) :
    gpu_mem_alloc mbox size alignment flags true env =
    if alloc_stage mbox size alignment flags env = 0 then
      (-1, some { mbox := mbox, mem_handle := 0, bus_addr := 0,
                  size := align_up size alignment, virt_addr := 0,
                  flags := flags },
       [Op.allocCall (align_up size alignment) alignment flags])
    else if lock_stage mbox size alignment flags env = 0 then
      (-1, some { mbox := mbox, mem_handle := 0, bus_addr := 0,
                  size := align_up size alignment, virt_addr := 0,
                  flags := flags },
       [Op.allocCall (align_up size alignment) alignment flags,
        Op.lockCall (alloc_stage mbox size alignment flags env),
        Op.freeCall (alloc_stage mbox size alignment flags env)])
    else if map_stage mbox size alignment flags env = 0 then
      (-1, some { mbox := mbox, mem_handle := 0, bus_addr := 0,
                  size := align_up size alignment, virt_addr := 0,
                  flags := flags },
       [Op.allocCall (align_up size alignment) alignment flags,
        Op.lockCall (alloc_stage mbox size alignment flags env)] ++
       (mapmem_uncached (bus_to_phys (lock_stage mbox size alignment flags env))
          (align_up size alignment) (decide ((flags &&& MEM_FLAG_DIRECT) ≠ 0))
          env.map_env).2 ++
       [Op.unlockCall (alloc_stage mbox size alignment flags env),
        Op.freeCall (alloc_stage mbox size alignment flags env)])
    else
      (0, some { mbox := mbox,
                 mem_handle := alloc_stage mbox size alignment flags env,
                 bus_addr := lock_stage mbox size alignment flags env,
                 size := align_up size alignment,
                 virt_addr := map_stage mbox size alignment flags env,
                 flags := flags },
       [Op.allocCall (align_up size alignment) alignment flags,
        Op.lockCall (alloc_stage mbox size alignment flags env)] ++
       (mapmem_uncached (bus_to_phys (lock_stage mbox size alignment flags env))
          (align_up size alignment) (decide ((flags &&& MEM_FLAG_DIRECT) ≠ 0))
          env.map_env).2) := by
  unfold gpu_mem_alloc alloc_stage lock_stage map_stage
  rfl

/-- gpu_mem_free on a non-NULL structure, characterized field by field:
the trace is unmap then unlock then free, each guarded only by its own
field being set, and the result is -1 exactly when the unlock or the
release call reported an error. -/
theorem gpu_mem_free_eq (m : gpu_mem_t) (env : FreeEnv) :
    gpu_mem_free (some m) env =
    (if (m.bus_addr ≠ 0 ∧ mem_unlock m.mbox m.mem_handle env.unlock_r ≠ 0) ∨
        (m.mem_handle ≠ 0 ∧ mem_free m.mbox m.mem_handle env.free_r ≠ 0)
     then -1 else 0,
     some { m with virt_addr := 0, bus_addr := 0, mem_handle := 0 },
     (if m.virt_addr ≠ 0 then unmapmem m.virt_addr m.size else []) ++
     (if m.bus_addr ≠ 0 then [Op.unlockCall m.mem_handle] else []) ++
     (if m.mem_handle ≠ 0 then [Op.freeCall m.mem_handle] else [])) := by
  unfold gpu_mem_free free_step_unmap free_step_unlock free_step_release
  obtain ⟨mb, mh, ba, sz, va, fl⟩ := m
  by_cases h1 : va = 0 <;> by_cases h2 : ba = 0 <;> by_cases h3 : mh = 0 <;>
    simp [h1, h2, h3]

/- ==========================================================================
Claim theorems.
========================================================================== -/

/-- Claim C1: if any stage of zero-copy buffer creation fails (allocate
returning handle 0, lock returning bus address 0, or map returning NULL),
gpu_mem_alloc returns -1, leaves the output gpu_mem_t with mem_handle = 0,
bus_addr = 0 and virt_addr = NULL, and rolls back every previously
completed stage: a completed allocation is released with mem_free, and a
completed lock is undone with mem_unlock. -/
theorem gpu_mem_alloc_rollback (mbox : Int) (size alignment flags : Nat)
    (env : AllocEnv)
    (h : alloc_stage mbox size alignment flags env = 0 ∨
         lock_stage mbox size alignment flags env = 0 ∨
         map_stage mbox size alignment flags env = 0) :
    (gpu_mem_alloc mbox size alignment flags true env).1 = -1 ∧
    (gpu_mem_alloc mbox size alignment flags true env).2.1 =
      some { mbox := mbox, mem_handle := 0, bus_addr := 0,
             size := align_up size alignment, virt_addr := 0,
             flags := flags } ∧
    (alloc_stage mbox size alignment flags env ≠ 0 →
      Op.freeCall (alloc_stage mbox size alignment flags env) ∈
        (gpu_mem_alloc mbox size alignment flags true env).2.2) ∧
    (alloc_stage mbox size alignment flags env ≠ 0 →
     lock_stage mbox size alignment flags env ≠ 0 →
      Op.unlockCall (alloc_stage mbox size alignment flags env) ∈
        (gpu_mem_alloc mbox size alignment flags true env).2.2) := by
  rw [gpu_mem_alloc_eq]
  by_cases hA : alloc_stage mbox size alignment flags env = 0
  · simp [hA]
  · by_cases hL : lock_stage mbox size alignment flags env = 0
    · simp [hA, hL]
    · by_cases hM : map_stage mbox size alignment flags env = 0
      · simp [hA, hL, hM]
      · rcases h with h | h | h <;> contradiction

/-- Witness for C1 at a concrete input where the lock stage fails. -/
theorem gpu_mem_alloc_rollback_witness :
    (alloc_stage 3 100 4096 4
        { alloc_r := { transport_ok := true, code := 0x80000000, value := 42 },
          lock_r := { transport_ok := true, code := 0x80000000, value := 0 },
          map_env := { open_ok := true, mmap_ok := true, mmap_base := 0 } } = 0 ∨
     lock_stage 3 100 4096 4
        { alloc_r := { transport_ok := true, code := 0x80000000, value := 42 },
          lock_r := { transport_ok := true, code := 0x80000000, value := 0 },
          map_env := { open_ok := true, mmap_ok := true, mmap_base := 0 } } = 0 ∨
     map_stage 3 100 4096 4
        { alloc_r := { transport_ok := true, code := 0x80000000, value := 42 },
          lock_r := { transport_ok := true, code := 0x80000000, value := 0 },
          map_env := { open_ok := true, mmap_ok := true, mmap_base := 0 } } = 0) ∧
    (gpu_mem_alloc 3 100 4096 4 true
        { alloc_r := { transport_ok := true, code := 0x80000000, value := 42 },
          lock_r := { transport_ok := true, code := 0x80000000, value := 0 },
          map_env := { open_ok := true, mmap_ok := true, mmap_base := 0 } }).1
      = -1 :=
  ⟨by decide,
   (gpu_mem_alloc_rollback 3 100 4096 4
      { alloc_r := { transport_ok := true, code := 0x80000000, value := 42 },
        lock_r := { transport_ok := true, code := 0x80000000, value := 0 },
        map_env := { open_ok := true, mmap_ok := true, mmap_base := 0 } }
      (by decide)).1⟩

/-- Claim C3: gpu_mem_alloc always hands back a structure satisfying the
invariant (bus_addr nonzero implies mem_handle nonzero, virt_addr
non-NULL implies bus_addr nonzero), and starting from a structure
satisfying the invariant, every step of gpu_mem_free (unmap, unlock,
release) leaves it satisfied. -/
theorem gpu_mem_inv_preserved :
    (∀ (mbox : Int) (size alignment flags : Nat) (env : AllocEnv)
       (m : gpu_mem_t),
      (gpu_mem_alloc mbox size alignment flags true env).2.1 = some m →
      gpu_mem_inv m) ∧
    (∀ (m : gpu_mem_t) (env : FreeEnv), gpu_mem_inv m →
      gpu_mem_inv (free_step_unmap m).1 ∧
      gpu_mem_inv (free_step_unlock (free_step_unmap m).1 env.unlock_r).1 ∧
      gpu_mem_inv (free_step_release
        (free_step_unlock (free_step_unmap m).1 env.unlock_r).1 env.free_r).1) := by
  constructor
  · intro mbox size alignment flags env m h
    rw [gpu_mem_alloc_eq] at h
    by_cases hA : alloc_stage mbox size alignment flags env = 0
    · simp [hA] at h
      simp [← h, gpu_mem_inv]
    · by_cases hL : lock_stage mbox size alignment flags env = 0
      · simp [hA, hL] at h
        simp [← h, gpu_mem_inv]
      · by_cases hM : map_stage mbox size alignment flags env = 0
        · simp [hA, hL, hM] at h
          simp [← h, gpu_mem_inv]
        · simp [hA, hL, hM] at h
          simp [← h, gpu_mem_inv]
          exact ⟨fun _ => hA, fun _ => hL⟩
  · intro m env hm
    obtain ⟨mb, mh, ba, sz, va, fl⟩ := m
    unfold gpu_mem_inv free_step_unmap free_step_unlock free_step_release at *
    by_cases h1 : va = 0 <;> by_cases h2 : ba = 0 <;> by_cases h3 : mh = 0 <;>
      simp [h1, h2, h3] at hm ⊢ <;> tauto

/-- Witness for C3: the success path of gpu_mem_alloc satisfies the
invariant, and so does the final state of the teardown steps started from
a structure satisfying the invariant. -/
theorem gpu_mem_inv_preserved_witness :
    gpu_mem_inv { mbox := 3, mem_handle := 42, bus_addr := 0xC0001000,
                  size := 4096, virt_addr := 0x7f0000000000, flags := 0xC } ∧
    gpu_mem_inv { mbox := 3, mem_handle := 0, bus_addr := 0,
                  size := 16, virt_addr := 0, flags := 12 } :=
  ⟨gpu_mem_inv_preserved.1 3 4096 4096 0xC
     { alloc_r := { transport_ok := true, code := 0x80000000, value := 42 },
       lock_r := { transport_ok := true, code := 0x80000000, value := 0xC0001000 },
       map_env := { open_ok := true, mmap_ok := true,
                    mmap_base := 0x7f0000000000 } }
     { mbox := 3, mem_handle := 42, bus_addr := 0xC0001000, size := 4096,
       virt_addr := 0x7f0000000000, flags := 0xC } (by decide),
   (gpu_mem_inv_preserved.2
     { mbox := 3, mem_handle := 7, bus_addr := 5, size := 16, virt_addr := 9,
       flags := 12 }
     { munmap_ok := true,
       unlock_r := { transport_ok := true, code := 0x80000000, value := 0 },
       free_r := { transport_ok := true, code := 0x80000000, value := 0 } }
     (by decide)).2.2⟩

/-- Claim C4 (amended): gpu_mem_free runs unmap, then unlock, then free, in
that order, attempting each remaining stage regardless of earlier
failures, each stage guarded only by its own resource field; the returned
result is -1 exactly when the unlock call or the release call reported an
error.  (A failed munmap in the unmap stage only prints a warning and is
not reflected in the result — see the counterexample.) -/
theorem gpu_mem_free_order_first_error (m : gpu_mem_t) (env : FreeEnv) :
    (gpu_mem_free (some m) env).2.2 =
      (if m.virt_addr ≠ 0 then unmapmem m.virt_addr m.size else []) ++
      (if m.bus_addr ≠ 0 then [Op.unlockCall m.mem_handle] else []) ++
      (if m.mem_handle ≠ 0 then [Op.freeCall m.mem_handle] else []) ∧
    (gpu_mem_free (some m) env).1 =
      (if (m.bus_addr ≠ 0 ∧ mem_unlock m.mbox m.mem_handle env.unlock_r ≠ 0) ∨
          (m.mem_handle ≠ 0 ∧ mem_free m.mbox m.mem_handle env.free_r ≠ 0)
       then -1 else 0) := by
  rw [gpu_mem_free_eq]
  exact ⟨rfl, rfl⟩

/-- Counterexample to C4 as stated: with a structure whose only live
resource is the mapping, and an environment in which munmap fails, the
unmap stage runs (and fails), yet gpu_mem_free returns 0, not a failure
result — the munmap error is never surfaced to the caller. -/
theorem gpu_mem_free_unmap_error_not_surfaced :
    ({ munmap_ok := false,
       unlock_r := { transport_ok := true, code := 0x80000000, value := 0 },
       free_r := { transport_ok := true, code := 0x80000000, value := 0 }
     } : FreeEnv).munmap_ok = false ∧
    gpu_mem_free
      (some { mbox := 5, mem_handle := 0, bus_addr := 0, size := 100,
              virt_addr := 0x5000, flags := 0 })
      { munmap_ok := false,
        unlock_r := { transport_ok := true, code := 0x80000000, value := 0 },
        free_r := { transport_ok := true, code := 0x80000000, value := 0 } } =
      (0, some { mbox := 5, mem_handle := 0, bus_addr := 0, size := 100,
                 virt_addr := 0, flags := 0 },
       [Op.munmapCall 0x5000 4096]) ∧
    (0 : Int) ≠ -1 := by
  exact ⟨rfl, by decide, by decide⟩

/-- Claim C5 (amended): with a valid mailbox handle and a successful ioctl
transport, a firmware response code different from RESPONSE_OK makes
mem_alloc and mem_lock return their failure value 0; mem_unlock and
mem_free, however, never inspect the response code — they return the
response status word unchanged, so a firmware rejection is reported to
their caller only if that word happens to be nonzero. -/
theorem firmware_rejection_surfacing (mbox : Int)
    (size alignment flags handle : Nat) (r : PropResult)
    (hmb : mbox ≠ MBOX_INVALID_HANDLE) (ht : r.transport_ok = true)
    (hc : r.code ≠ RESPONSE_OK) :
    mem_alloc mbox size alignment flags r = 0 ∧
    mem_lock mbox handle r = 0 ∧
    mem_unlock mbox handle r = r.value % U32 ∧
    mem_free mbox handle r = r.value % U32 := by
  unfold mem_alloc mem_lock mem_unlock mem_free mbox_property
  simp [hmb, ht, hc]

/-- Witness for C5 at a concrete rejected exchange. -/
theorem firmware_rejection_surfacing_witness :
    mem_alloc 3 64 16 4 { transport_ok := true, code := RESPONSE_ERROR, value := 7 } = 0 ∧
    mem_lock 3 9 { transport_ok := true, code := RESPONSE_ERROR, value := 7 } = 0 ∧
    mem_unlock 3 9 { transport_ok := true, code := RESPONSE_ERROR, value := 7 } = 7 % U32 ∧
    mem_free 3 9 { transport_ok := true, code := RESPONSE_ERROR, value := 7 } = 7 % U32 :=
  firmware_rejection_surfacing 3 64 16 4 9
    { transport_ok := true, code := RESPONSE_ERROR, value := 7 }
    (by decide) (by decide) (by decide)

/-- Counterexample to C5 as stated: a firmware rejection (response code
RESPONSE_ERROR, not RESPONSE_OK) whose status word is 0 makes mem_unlock
and mem_free return 0 — the success status — not the nonzero failure
status the claim promises. -/
theorem mem_unlock_ignores_response_code :
    RESPONSE_ERROR ≠ RESPONSE_OK ∧
    mem_unlock 3 7 { transport_ok := true, code := RESPONSE_ERROR, value := 0 } = 0 ∧
    mem_free 3 7 { transport_ok := true, code := RESPONSE_ERROR, value := 0 } = 0 := by
  exact ⟨by decide, by decide, by decide⟩

/-- Witness for C2 at a concrete 30-bit physical address and alias 3. -/
theorem bus_translator_roundtrip_witness :
    bus_to_phys (phys_to_bus 0x12345678 3) = 0x12345678 ∧
    bus_get_alias (phys_to_bus 0x12345678 3) = 3 :=
  (bus_translator_roundtrip 0x12345678 3).1 (by decide) (by decide)

/-- The size field stored by gpu_mem_alloc is always the aligned size. -/
theorem gpu_mem_alloc_size (mbox : Int) (size alignment flags : Nat)
    (env : AllocEnv) (m : gpu_mem_t)
    (h : (gpu_mem_alloc mbox size alignment flags true env).2.1 = some m) :
    m.size = align_up size alignment := by
  rw [gpu_mem_alloc_eq] at h
  by_cases hA : alloc_stage mbox size alignment flags env = 0
  · simp [hA] at h
    simp [← h]
  · by_cases hL : lock_stage mbox size alignment flags env = 0
    · simp [hA, hL] at h
      simp [← h]
    · by_cases hM : map_stage mbox size alignment flags env = 0
      · simp [hA, hL, hM] at h
        simp [← h]
      · simp [hA, hL, hM] at h
        simp [← h]

/-- Claim C6 (amended): for a buffer successfully created with requested
size S and power-of-two alignment A, provided the rounding computation
S + A - 1 does not overflow uint32_t (S + A less than 2^32), the stored
size is a multiple of A and at least S.  Without the no-overflow proviso,
the claim fails: see the counterexample. -/
theorem gpu_mem_alloc_size_aligned (mbox : Int) (S A k flags : Nat)
    (env : AllocEnv) (m : gpu_mem_t) (hA : A = 2 ^ k) (hk : k ≤ 32)
    (hS : S + A ≤ 2 ^ 32)
    (hret : (gpu_mem_alloc mbox S A flags true env).1 = 0)
    (h : (gpu_mem_alloc mbox S A flags true env).2.1 = some m) :
    A ∣ m.size ∧ S ≤ m.size := by
  subst hA
  rw [gpu_mem_alloc_size mbox S _ flags env m h]
  exact align_up_dvd_ge hk hS

/-- Witness for C6: size 100, alignment 4096 = 2^12, successful creation. -/
theorem gpu_mem_alloc_size_aligned_witness :
    (4096 : Nat) ∣ 4096 ∧ (100 : Nat) ≤ 4096 :=
  gpu_mem_alloc_size_aligned 3 100 4096 12 0xC
    { alloc_r := { transport_ok := true, code := 0x80000000, value := 42 },
      lock_r := { transport_ok := true, code := 0x80000000, value := 0xC0001000 },
      map_env := { open_ok := true, mmap_ok := true,
                   mmap_base := 0x7f0000000000 } }
    { mbox := 3, mem_handle := 42, bus_addr := 0xC0001000, size := 4096,
      virt_addr := 0x7f0000000000, flags := 0xC }
    (by decide) (by decide) (by decide) (by decide) (by decide)

/-- Counterexample to C6 as stated: requesting size 2^32 - 1 with alignment
4096 overflows the uint32_t rounding in align_up, the stored size wraps
to 0, and the creation nevertheless succeeds as far as gpu_mem_alloc is
concerned — so the reported size is smaller than the requested size. -/
theorem gpu_mem_alloc_size_overflow :
    gpu_mem_alloc 3 (2 ^ 32 - 1) 4096 0 true
      { alloc_r := { transport_ok := true, code := 0x80000000, value := 42 },
        lock_r := { transport_ok := true, code := 0x80000000, value := 0xC0000000 },
        map_env := { open_ok := true, mmap_ok := true,
                     mmap_base := 0x7f0000000000 } } =
      (0, some { mbox := 3, mem_handle := 42, bus_addr := 0xC0000000, size := 0,
                 virt_addr := 0x7f0000000000, flags := 0 },
       [Op.allocCall 0 4096 0, Op.lockCall 42, Op.mapCall 0 0 false]) ∧
    ¬ (2 ^ 32 - 1 ≤ (0 : Nat)) := by
  exact ⟨by decide, by decide⟩

/-- Claim C7: mapmem_uncached with physical base b and size s maps the
page-aligned range starting at b rounded down to a page, of length
align_up(s + b mod page, page), returning a pointer offset by b mod page
from the mmap base; and unmapmem on that pointer with the identical size
reconstructs exactly the mapped virtual page base and the same mapped
length for the munmap call. -/
theorem mapmem_unmap_roundtrip (base size : Nat) (uncached : Bool)
    (env : MapEnv) (hb : base < 2 ^ 32) (ho : env.open_ok = true)
    (hm : env.mmap_ok = true) (hB : env.mmap_base % PAGE_SIZE = 0)
    (hB2 : env.mmap_base < 2 ^ 64) (hB0 : env.mmap_base ≠ 0) :
    mapmem_uncached base size uncached env =
      (env.mmap_base + base % PAGE_SIZE,
       [Op.mapCall (base / PAGE_SIZE * PAGE_SIZE)
          (align_up (size + base % PAGE_SIZE) PAGE_SIZE) uncached]) ∧
    unmapmem (env.mmap_base + base % PAGE_SIZE) size =
      [Op.munmapCall env.mmap_base
         (align_up (size + base % PAGE_SIZE) PAGE_SIZE)] := by
  have hc32 : compl32 4095 = 2 ^ 32 - 2 ^ 12 := by decide
  have hc64 : compl64 4095 = 2 ^ 64 - 2 ^ 12 := by decide
  have h12 : (2 : Nat) ^ 12 = 4096 := by norm_num
  have h64 : (2 : Nat) ^ 64 = 18446744073709551616 := by norm_num
  have hPS : PAGE_SIZE = 4096 := rfl
  have hU64 : U64 = 18446744073709551616 := rfl
  rw [hPS] at hB
  rw [h64] at hB2
  have h1 : base &&& compl32 4095 = base / 4096 * 4096 := by
    rw [hc32, land_high_mask hb (by norm_num), h12]
  have hoff : base - base / 4096 * 4096 = base % 4096 := by omega
  have hofflt : base % 4096 < 4096 := Nat.mod_lt _ (by norm_num)
  have hsum : env.mmap_base + base % 4096 < 18446744073709551616 := by omega
  have hbase : env.mmap_base % U64 = env.mmap_base := by
    rw [hU64]
    exact Nat.mod_eq_of_lt hB2
  have hsum' : (env.mmap_base + base % 4096) % U64 =
      env.mmap_base + base % 4096 := by
    rw [hU64]
    exact Nat.mod_eq_of_lt hsum
  have h2 : (env.mmap_base + base % 4096) &&& compl64 4095 = env.mmap_base := by
    rw [hc64, land_high_mask (x := env.mmap_base + base % 4096)
      (show env.mmap_base + base % 4096 < 2 ^ 64 by omega) (by norm_num), h12]
    omega
  have h3 : env.mmap_base + base % 4096 - env.mmap_base = base % 4096 := by
    omega
  have hptr : ¬ (env.mmap_base + base % 4096 = 0) := by omega
  constructor
  · rw [hPS]
    unfold mapmem_uncached
    simp only [hPS]
    simp [ho, hm, h1, hoff, hbase, hsum']
  · rw [hPS]
    unfold unmapmem
    simp only [hPS]
    simp [hptr, h2, h3]

/-- Witness for C7 at a concrete non-page-aligned base. -/
theorem mapmem_unmap_roundtrip_witness :
    mapmem_uncached 2146595 100 true
      { open_ok := true, mmap_ok := true, mmap_base := 139637976727552 } =
      (139637976727552 + 2146595 % PAGE_SIZE,
       [Op.mapCall (2146595 / PAGE_SIZE * PAGE_SIZE)
          (align_up (100 + 2146595 % PAGE_SIZE) PAGE_SIZE) true]) ∧
    unmapmem (139637976727552 + 2146595 % PAGE_SIZE) 100 =
      [Op.munmapCall 139637976727552
         (align_up (100 + 2146595 % PAGE_SIZE) PAGE_SIZE)] :=
  mapmem_unmap_roundtrip 2146595 100 true
    { open_ok := true, mmap_ok := true, mmap_base := 139637976727552 }
    (by decide) (by decide) (by decide) (by decide) (by decide) (by decide)

/-- The caching-alias field in arithmetic form. -/
theorem flags_alias_eq (flags : Nat) : flags_alias flags = flags / 4 % 4 := by
  unfold flags_alias
  have h3 : (0x3 : Nat) = 2 ^ 2 - 1 := by decide
  rw [h3, Nat.and_pow_two_sub_one_eq_mod, Nat.shiftRight_eq_div_pow]

/-- The MEM_FLAG_DIRECT bit in arithmetic form. -/
theorem flags_direct_bit (flags : Nat) :
    ((flags &&& MEM_FLAG_DIRECT) ≠ 0) ↔ flags / 4 % 2 = 1 := by
  unfold MEM_FLAG_DIRECT
  have h4 : (1 <<< 2 : Nat) = 2 ^ 2 := by decide
  rw [h4, Nat.and_two_pow, Nat.testBit_to_div_mod]
  by_cases hb : flags / 2 ^ 2 % 2 = 1 <;> simp [hb] <;> norm_num at hb ⊢ <;> omega

/-- The MEM_FLAG_DIRECT test used by gpu_mem_alloc is true exactly for the
aliases whose low selector bit is set: the direct alias 1 and the
L1-nonallocating alias 3. -/
theorem flags_direct_iff (flags : Nat) :
    ((flags &&& MEM_FLAG_DIRECT) ≠ 0) ↔
      (flags_alias flags = 1 ∨ flags_alias flags = 3) := by
  rw [flags_direct_bit, flags_alias_eq]
  omega

/-- Any mmap operation recorded by mapmem_uncached carries exactly the
uncached flag the caller passed. -/
theorem mapmem_uncached_trace (base size : Nat) (uncached : Bool)
    (env : MapEnv) (pb ms : Nat) (u : Bool)
    (h : Op.mapCall pb ms u ∈ (mapmem_uncached base size uncached env).2) :
    u = uncached := by
  unfold mapmem_uncached at h
  by_cases hO : env.open_ok = false
  · simp [hO] at h
  · by_cases hM : env.mmap_ok = false <;> simp [hO, hM] at h <;> tauto

/-- Claim C8 (amended): every mmap call issued by gpu_mem_alloc uses the
uncached (O_SYNC) mode exactly when flags has the MEM_FLAG_DIRECT bit
set, and that bit is set exactly for the caching aliases 1
(direct/uncached) and 3 (L1-nonallocating, whose flag value includes the
direct bit) — not only for the direct alias as the claim states. -/
theorem gpu_mem_alloc_uncached_selection (mbox : Int)
    (size alignment flags : Nat) (env : AllocEnv) (pb ms : Nat) (u : Bool)
    (h : Op.mapCall pb ms u ∈
      (gpu_mem_alloc mbox size alignment flags true env).2.2) :
    u = decide ((flags &&& MEM_FLAG_DIRECT) ≠ 0) ∧
    (((flags &&& MEM_FLAG_DIRECT) ≠ 0) ↔
      (flags_alias flags = 1 ∨ flags_alias flags = 3)) := by
  refine ⟨?_, flags_direct_iff flags⟩
  rw [gpu_mem_alloc_eq] at h
  by_cases hA : alloc_stage mbox size alignment flags env = 0
  · simp [hA] at h
  · by_cases hL : lock_stage mbox size alignment flags env = 0
    · simp [hA, hL] at h
    · by_cases hM : map_stage mbox size alignment flags env = 0
      · simp [hA, hL, hM] at h
        simpa using mapmem_uncached_trace _ _ _ _ _ _ _ h
      · simp [hA, hL, hM] at h
        simpa using mapmem_uncached_trace _ _ _ _ _ _ _ h

/-- Witness for C8: a creation with MEM_FLAG_ZERO_COPY-like direct flags
records an uncached mmap. -/
theorem gpu_mem_alloc_uncached_selection_witness :
    true = decide ((0xC &&& MEM_FLAG_DIRECT) ≠ 0) ∧
    (((0xC &&& MEM_FLAG_DIRECT) ≠ 0) ↔
      (flags_alias 0xC = 1 ∨ flags_alias 0xC = 3)) :=
  gpu_mem_alloc_uncached_selection 3 4096 4096 0xC
    { alloc_r := { transport_ok := true, code := 0x80000000, value := 42 },
      lock_r := { transport_ok := true, code := 0x80000000, value := 0xC0001000 },
      map_env := { open_ok := true, mmap_ok := true,
                   mmap_base := 0x7f0000000000 } }
    0x1000 4096 true (by decide)

/-- Counterexample to C8 as stated: MEM_FLAG_L1_NONALLOCATING selects
alias 3, not the direct alias 1, yet gpu_mem_alloc maps it uncached
(the mmap call is recorded with the O_SYNC flag set). -/
theorem l1_nonallocating_maps_uncached :
    flags_alias MEM_FLAG_L1_NONALLOCATING = 3 ∧
    flags_alias MEM_FLAG_L1_NONALLOCATING ≠ 1 ∧
    (gpu_mem_alloc 3 4096 4096 MEM_FLAG_L1_NONALLOCATING true
      { alloc_r := { transport_ok := true, code := 0x80000000, value := 42 },
        lock_r := { transport_ok := true, code := 0x80000000, value := 0xC0001000 },
        map_env := { open_ok := true, mmap_ok := true,
                     mmap_base := 0x7f0000000000 } }).2.2 =
      [Op.allocCall 4096 4096 12, Op.lockCall 42,
       Op.mapCall 0x1000 4096 true] := by
  exact ⟨by decide, by decide, by decide⟩

/-- Claim C9: after gpu_mem_free has torn a structure down, a second
gpu_mem_free on the resulting structure performs no unmap, unlock or free
operation (the trace is empty), leaves the structure unchanged, and
returns 0 — it never double-frees. -/
theorem gpu_mem_free_double_free_safe (m : gpu_mem_t) (env1 env2 : FreeEnv) :
    gpu_mem_free ((gpu_mem_free (some m) env1).2.1) env2 =
      (0, (gpu_mem_free (some m) env1).2.1, []) := by
  rw [gpu_mem_free_eq]
  rw [gpu_mem_free_eq]
  simp

/-- Claim C10: the public API is total on NULL arguments: gpu_mem_alloc
with a NULL output structure returns -1 with no operation performed,
gpu_mem_free of NULL returns -1 with no teardown, and unmapmem of a NULL
pointer is a no-op. -/
theorem null_arguments_safe (mbox : Int) (size alignment flags sz : Nat)
    (env : AllocEnv) (envF : FreeEnv) :
    gpu_mem_alloc mbox size alignment flags false env = (-1, none, []) ∧
    gpu_mem_free none envF = (-1, none, []) ∧
    unmapmem 0 sz = [] :=
  ⟨rfl, rfl, rfl⟩

end HPC.Mailbox
